import Mathlib

/-!
Shallow embedding of the jss crate: a JSON-notation-to-CSS renderer
(src/lib.rs) with a static property-name table (src/style.rs).

Modelling choices:
* JSON values follow the shape of the json crate's JsonValue (object entry
  order preserved, as the json crate keeps insertion order); its numbers are
  modelled as integers with decimal display, which covers every numeric
  literal the crate's tests and docs exercise.
* Rust panics are modelled as `Except.error` results; the compile-time
  `strict` cargo feature becomes an explicit `strict : Bool` parameter.
* The general recursion of `process_css_selector_map` and
  `process_css_properties` is driven by an explicit fuel counter (`none`
  means the fuel ran out; any fuel above the nesting depth of the input is
  enough, and the Rust recursion always terminates for finite JSON trees).
* Rust `str` primitives (`split` with a one-character pattern, `trim`,
  `trim_start_matches`, `starts_with`) are modelled character-wise on
  `String.data`.
-/

/-- Model of Rust str::split with a one-character pattern, on char lists:
splits at every occurrence of the separator, keeping empty pieces. -/
def splitCharGo (c : Char) : List Char → List (List Char)
  | [] => [[]]
  | x :: xs =>
    if x = c then [] :: splitCharGo c xs
    else
      match splitCharGo c xs with
      | [] => [[x]]
      | h :: t => (x :: h) :: t

/-- Model of Rust str::split with a one-character pattern. -/
def splitChar (c : Char) (s : String) : List String :=
  (splitCharGo c s.data).map (fun l => String.mk l)

/-- Model of Rust str::trim_start_matches with a one-character pattern:
drops every leading occurrence of that character. -/
def trimLeadChar (c : Char) (s : String) : String :=
  String.mk (s.data.dropWhile (fun d => d = c))

/-- Model of Rust str::trim (restricted to ASCII whitespace, which is all the
crate's selector strings use). -/
def strTrim (s : String) : String :=
  String.mk (((s.data.dropWhile Char.isWhitespace).reverse.dropWhile Char.isWhitespace).reverse)

/-- Model of Rust str::starts_with with a one-character pattern. -/
def startsWithChar (c : Char) (s : String) : Bool :=
  match s.data with
  | [] => false
  | d :: _ => d == c

/-- The shape of json::JsonValue from the json crate, as consumed by the
renderer: `str`/`short` are the two string variants, `num` stands for the
crate's Number (modelled as an integer with decimal display). -/
inductive JsonValue where
  | str (s : String)
  | short (s : String)
  | num (n : Int)
  | bool (b : Bool)
  | null
  | arr (elems : List JsonValue)
  | obj (entries : List (String × JsonValue))

/-- json::JsonValue::entries(): the key/value pairs of an object, in insertion
order; empty for every non-object value. -/
def JsonValue.entries : JsonValue → List (String × JsonValue)
  | JsonValue.obj es => es
  | _ => []

/-- json::JsonValue::is_object(). -/
def JsonValue.isObject : JsonValue → Bool
  | JsonValue.obj _ => true
  | _ => false

/-- The two panics of process_css_properties (src/lib.rs lines 246 and 269),
modelled as errors: an unknown property key in strict mode (reporting the key
and the enclosing selector), and a value that is not a string, number or
boolean. -/
inductive CssError where
  | unknownProperty (key : String) (selector : Option String)
  | unsupportedValueType
  deriving DecidableEq

/-- IDENT_STYLE (src/style.rs): the static table mapping the rust-style ident
spelling of each CSS property to its hyphenated canonical name.  The source
builds a BTreeMap from this array; the array is already sorted by key and
keys are distinct, so a plain association list with the same order is a
faithful model of both BTreeMap::get and BTreeMap::iter. -/
def identStyle : List (String × String) := [
    ("align_content", "align-content"),
    ("align_items", "align-items"),
    ("align_self", "align-self"),
    ("animation", "animation"),
    ("animation_delay", "animation-delay"),
    ("animation_direction", "animation-direction"),
    ("animation_duration", "animation-duration"),
    ("animation_fill_mode", "animation-fill-mode"),
    ("animation_iteration_count", "animation-iteration-count"),
    ("animation_name", "animation-name"),
    ("animation_play_state", "animation-play-state"),
    ("animation_timing_function", "animation-timing-function"),
    ("backdrop_filter", "backdrop-filter"),
    ("backface_visibility", "backface-visibility"),
    ("background", "background"),
    ("background_attachment", "background-attachment"),
    ("background_blend_mode", "background-blend-mode"),
    ("background_clip", "background-clip"),
    ("background_color", "background-color"),
    ("background_image", "background-image"),
    ("background_origin", "background-origin"),
    ("background_position", "background-position"),
    ("background_repeat", "background-repeat"),
    ("background_size", "background-size"),
    ("block_size", "block-size"),
    ("border", "border"),
    ("border_block", "border-block"),
    ("border_block_color", "border-block-color"),
    ("border_block_end", "border-block-end"),
    ("border_block_end_color", "border-block-end-color"),
    ("border_block_end_style", "border-block-end-style"),
    ("border_block_end_width", "border-block-end-width"),
    ("border_block_start", "border-block-start"),
    ("border_block_start_color", "border-block-start-color"),
    ("border_block_start_style", "border-block-start-style"),
    ("border_block_start_width", "border-block-start-width"),
    ("border_block_style", "border-block-style"),
    ("border_block_width", "border-block-width"),
    ("border_bottom", "border-bottom"),
    ("border_bottom_color", "border-bottom-color"),
    ("border_bottom_left_radius", "border-bottom-left-radius"),
    ("border_bottom_right_radius", "border-bottom-right-radius"),
    ("border_bottom_style", "border-bottom-style"),
    ("border_bottom_width", "border-bottom-width"),
    ("border_collapse", "border-collapse"),
    ("border_color", "border-color"),
    ("border_end_end_radius", "border-end-end-radius"),
    ("border_end_start_radius", "border-end-start-radius"),
    ("border_image", "border-image"),
    ("border_image_outset", "border-image-outset"),
    ("border_image_repeat", "border-image-repeat"),
    ("border_image_slice", "border-image-slice"),
    ("border_image_source", "border-image-source"),
    ("border_image_width", "border-image-width"),
    ("border_inline", "border-inline"),
    ("border_inline_color", "border-inline-color"),
    ("border_inline_end", "border-inline-end"),
    ("border_inline_end_color", "border-inline-end-color"),
    ("border_inline_end_style", "border-inline-end-style"),
    ("border_inline_end_width", "border-inline-end-width"),
    ("border_inline_start", "border-inline-start"),
    ("border_inline_start_color", "border-inline-start-color"),
    ("border_inline_start_style", "border-inline-start-style"),
    ("border_inline_start_width", "border-inline-start-width"),
    ("border_inline_style", "border-inline-style"),
    ("border_inline_width", "border-inline-width"),
    ("border_left", "border-left"),
    ("border_left_color", "border-left-color"),
    ("border_left_style", "border-left-style"),
    ("border_left_width", "border-left-width"),
    ("border_radius", "border-radius"),
    ("border_right", "border-right"),
    ("border_right_color", "border-right-color"),
    ("border_right_style", "border-right-style"),
    ("border_right_width", "border-right-width"),
    ("border_spacing", "border-spacing"),
    ("border_start_end_radius", "border-start-end-radius"),
    ("border_start_start_radius", "border-start-start-radius"),
    ("border_style", "border-style"),
    ("border_top", "border-top"),
    ("border_top_color", "border-top-color"),
    ("border_top_left_radius", "border-top-left-radius"),
    ("border_top_right_radius", "border-top-right-radius"),
    ("border_top_style", "border-top-style"),
    ("border_top_width", "border-top-width"),
    ("border_width", "border-width"),
    ("bottom", "bottom"),
    ("box_decoration_break", "box-decoration-break"),
    ("box_shadow", "box-shadow"),
    ("box_sizing", "box-sizing"),
    ("break_after", "break-after"),
    ("break_before", "break-before"),
    ("break_inside", "break-inside"),
    ("caption_side", "caption-side"),
    ("caret_color", "caret-color"),
    ("clear", "clear"),
    ("clip", "clip"),
    ("clip_path", "clip-path"),
    ("color", "color"),
    ("color_adjust", "color-adjust"),
    ("column_count", "column-count"),
    ("column_fill", "column-fill"),
    ("column_gap", "column-gap"),
    ("column_rule", "column-rule"),
    ("column_rule_color", "column-rule-color"),
    ("column_rule_style", "column-rule-style"),
    ("column_rule_width", "column-rule-width"),
    ("column_span", "column-span"),
    ("column_width", "column-width"),
    ("columns", "columns"),
    ("contain", "contain"),
    ("content", "content"),
    ("counter_increment", "counter-increment"),
    ("counter_reset", "counter-reset"),
    ("counter_set", "counter-set"),
    ("cursor", "cursor"),
    ("direction", "direction"),
    ("display", "display"),
    ("empty_cells", "empty-cells"),
    ("filter", "filter"),
    ("flex", "flex"),
    ("flex_basis", "flex-basis"),
    ("flex_direction", "flex-direction"),
    ("flex_flow", "flex-flow"),
    ("flex_grow", "flex-grow"),
    ("flex_shrink", "flex-shrink"),
    ("flex_wrap", "flex-wrap"),
    ("float", "float"),
    ("font", "font"),
    ("font_family", "font-family"),
    ("font_feature_settings", "font-feature-settings"),
    ("font_kerning", "font-kerning"),
    ("font_language_override", "font-language-override"),
    ("font_optical_sizing", "font-optical-sizing"),
    ("font_size", "font-size"),
    ("font_size_adjust", "font-size-adjust"),
    ("font_stretch", "font-stretch"),
    ("font_style", "font-style"),
    ("font_synthesis", "font-synthesis"),
    ("font_variant", "font-variant"),
    ("font_variant_alternates", "font-variant-alternates"),
    ("font_variant_caps", "font-variant-caps"),
    ("font_variant_east_asian", "font-variant-east-asian"),
    ("font_variant_ligatures", "font-variant-ligatures"),
    ("font_variant_numeric", "font-variant-numeric"),
    ("font_variant_position", "font-variant-position"),
    ("font_variation_settings", "font-variation-settings"),
    ("font_weight", "font-weight"),
    ("gap", "gap"),
    ("grad", "grad"),
    ("grid", "grid"),
    ("grid_area", "grid-area"),
    ("grid_auto_columns", "grid-auto-columns"),
    ("grid_auto_flow", "grid-auto-flow"),
    ("grid_auto_rows", "grid-auto-rows"),
    ("grid_column", "grid-column"),
    ("grid_column_end", "grid-column-end"),
    ("grid_column_start", "grid-column-start"),
    ("grid_row", "grid-row"),
    ("grid_row_end", "grid-row-end"),
    ("grid_row_start", "grid-row-start"),
    ("grid_template", "grid-template"),
    ("grid_template_areas", "grid-template-areas"),
    ("grid_template_columns", "grid-template-columns"),
    ("grid_template_rows", "grid-template-rows"),
    ("hanging_punctuation", "hanging-punctuation"),
    ("height", "height"),
    ("hyphens", "hyphens"),
    ("image_orientation", "image-orientation"),
    ("image_rendering", "image-rendering"),
    ("inherit", "inherit"),
    ("initial", "initial"),
    ("inline_size", "inline-size"),
    ("inset", "inset"),
    ("inset_block", "inset-block"),
    ("inset_block_end", "inset-block-end"),
    ("inset_block_start", "inset-block-start"),
    ("inset_inline", "inset-inline"),
    ("inset_inline_end", "inset-inline-end"),
    ("inset_inline_start", "inset-inline-start"),
    ("isolation", "isolation"),
    ("justify_content", "justify-content"),
    ("justify_items", "justify-items"),
    ("justify_self", "justify-self"),
    ("left", "left"),
    ("letter_spacing", "letter-spacing"),
    ("line_break", "line-break"),
    ("line_height", "line-height"),
    ("list_style", "list-style"),
    ("list_style_image", "list-style-image"),
    ("list_style_position", "list-style-position"),
    ("list_style_type", "list-style-type"),
    ("margin", "margin"),
    ("margin_block", "margin-block"),
    ("margin_block_end", "margin-block-end"),
    ("margin_block_start", "margin-block-start"),
    ("margin_bottom", "margin-bottom"),
    ("margin_inline", "margin-inline"),
    ("margin_inline_end", "margin-inline-end"),
    ("margin_inline_start", "margin-inline-start"),
    ("margin_left", "margin-left"),
    ("margin_right", "margin-right"),
    ("margin_top", "margin-top"),
    ("mask", "mask"),
    ("mask_border", "mask-border"),
    ("mask_border_mode", "mask-border-mode"),
    ("mask_border_outset", "mask-border-outset"),
    ("mask_border_repeat", "mask-border-repeat"),
    ("mask_border_slice", "mask-border-slice"),
    ("mask_border_source", "mask-border-source"),
    ("mask_border_width", "mask-border-width"),
    ("mask_clip", "mask-clip"),
    ("mask_composite", "mask-composite"),
    ("mask_image", "mask-image"),
    ("mask_mode", "mask-mode"),
    ("mask_origin", "mask-origin"),
    ("mask_position", "mask-position"),
    ("mask_repeat", "mask-repeat"),
    ("mask_size", "mask-size"),
    ("mask_type", "mask-type"),
    ("max_block_size", "max-block-size"),
    ("max_height", "max-height"),
    ("max_inline_size", "max-inline-size"),
    ("max_width", "max-width"),
    ("min_block_size", "min-block-size"),
    ("min_height", "min-height"),
    ("min_inline_size", "min-inline-size"),
    ("min_width", "min-width"),
    ("mix_blend_mode", "mix-blend-mode"),
    ("object_fit", "object-fit"),
    ("object_position", "object-position"),
    ("offset", "offset"),
    ("offset_anchor", "offset-anchor"),
    ("offset_distance", "offset-distance"),
    ("offset_path", "offset-path"),
    ("offset_rotate", "offset-rotate"),
    ("opacity", "opacity"),
    ("order", "order"),
    ("orphans", "orphans"),
    ("outline", "outline"),
    ("outline_color", "outline-color"),
    ("outline_offset", "outline-offset"),
    ("outline_style", "outline-style"),
    ("outline_width", "outline-width"),
    ("overflow", "overflow"),
    ("overflow_anchor", "overflow-anchor"),
    ("overflow_block", "overflow-block"),
    ("overflow_inline", "overflow-inline"),
    ("overflow_wrap", "overflow-wrap"),
    ("overflow_x", "overflow-x"),
    ("overflow_y", "overflow-y"),
    ("overscroll_behavior", "overscroll-behavior"),
    ("overscroll_behavior_block", "overscroll-behavior-block"),
    ("overscroll_behavior_inline", "overscroll-behavior-inline"),
    ("overscroll_behavior_x", "overscroll-behavior-x"),
    ("overscroll_behavior_y", "overscroll-behavior-y"),
    ("padding", "padding"),
    ("padding_block", "padding-block"),
    ("padding_block_end", "padding-block-end"),
    ("padding_block_start", "padding-block-start"),
    ("padding_bottom", "padding-bottom"),
    ("padding_inline", "padding-inline"),
    ("padding_inline_end", "padding-inline-end"),
    ("padding_inline_start", "padding-inline-start"),
    ("padding_left", "padding-left"),
    ("padding_right", "padding-right"),
    ("padding_top", "padding-top"),
    ("page_break_after", "page-break-after"),
    ("page_break_before", "page-break-before"),
    ("page_break_inside", "page-break-inside"),
    ("paint_order", "paint-order"),
    ("perspective", "perspective"),
    ("perspective_origin", "perspective-origin"),
    ("place_content", "place-content"),
    ("place_items", "place-items"),
    ("place_self", "place-self"),
    ("pointer_events", "pointer-events"),
    ("position", "position"),
    ("quotes", "quotes"),
    ("resize", "resize"),
    ("revert", "revert"),
    ("right", "right"),
    ("rotate", "rotate"),
    ("row_gap", "row-gap"),
    ("scale", "scale"),
    ("scroll_behavior", "scroll-behavior"),
    ("scroll_margin", "scroll-margin"),
    ("scroll_margin_block", "scroll-margin-block"),
    ("scroll_margin_block_end", "scroll-margin-block-end"),
    ("scroll_margin_block_start", "scroll-margin-block-start"),
    ("scroll_margin_bottom", "scroll-margin-bottom"),
    ("scroll_margin_inline", "scroll-margin-inline"),
    ("scroll_margin_inline_end", "scroll-margin-inline-end"),
    ("scroll_margin_inline_start", "scroll-margin-inline-start"),
    ("scroll_margin_left", "scroll-margin-left"),
    ("scroll_margin_right", "scroll-margin-right"),
    ("scroll_margin_top", "scroll-margin-top"),
    ("scroll_padding", "scroll-padding"),
    ("scroll_padding_block", "scroll-padding-block"),
    ("scroll_padding_block_end", "scroll-padding-block-end"),
    ("scroll_padding_block_start", "scroll-padding-block-start"),
    ("scroll_padding_bottom", "scroll-padding-bottom"),
    ("scroll_padding_inline", "scroll-padding-inline"),
    ("scroll_padding_inline_end", "scroll-padding-inline-end"),
    ("scroll_padding_inline_start", "scroll-padding-inline-start"),
    ("scroll_padding_left", "scroll-padding-left"),
    ("scroll_padding_right", "scroll-padding-right"),
    ("scroll_padding_top", "scroll-padding-top"),
    ("scroll_snap_align", "scroll-snap-align"),
    ("scroll_snap_stop", "scroll-snap-stop"),
    ("scroll_snap_type", "scroll-snap-type"),
    ("scrollbar_color", "scrollbar-color"),
    ("scrollbar_width", "scrollbar-width"),
    ("shape_image_threshold", "shape-image-threshold"),
    ("shape_margin", "shape-margin"),
    ("shape_outside", "shape-outside"),
    ("tab_size", "tab-size"),
    ("table_layout", "table-layout"),
    ("text_align", "text-align"),
    ("text_align_last", "text-align-last"),
    ("text_combine_upright", "text-combine-upright"),
    ("text_decoration", "text-decoration"),
    ("text_decoration_color", "text-decoration-color"),
    ("text_decoration_line", "text-decoration-line"),
    ("text_decoration_skip_ink", "text-decoration-skip-ink"),
    ("text_decoration_style", "text-decoration-style"),
    ("text_decoration_thickness", "text-decoration-thickness"),
    ("text_emphasis", "text-emphasis"),
    ("text_emphasis_color", "text-emphasis-color"),
    ("text_emphasis_position", "text-emphasis-position"),
    ("text_emphasis_style", "text-emphasis-style"),
    ("text_indent", "text-indent"),
    ("text_justify", "text-justify"),
    ("text_orientation", "text-orientation"),
    ("text_overflow", "text-overflow"),
    ("text_rendering", "text-rendering"),
    ("text_shadow", "text-shadow"),
    ("text_transform", "text-transform"),
    ("text_underline_offset", "text-underline-offset"),
    ("text_underline_position", "text-underline-position"),
    ("top", "top"),
    ("touch_action", "touch-action"),
    ("transform", "transform"),
    ("transform_box", "transform-box"),
    ("transform_origin", "transform-origin"),
    ("transform_style", "transform-style"),
    ("transition", "transition"),
    ("transition_delay", "transition-delay"),
    ("transition_duration", "transition-duration"),
    ("transition_property", "transition-property"),
    ("transition_timing_function", "transition-timing-function"),
    ("translate", "translate"),
    ("turn", "turn"),
    ("unicode_bidi", "unicode-bidi"),
    ("unset", "unset"),
    ("vertical_align", "vertical-align"),
    ("visibility", "visibility"),
    ("vmax", "vmax"),
    ("vmin", "vmin"),
    ("white_space", "white-space"),
    ("widows", "widows"),
    ("width", "width"),
    ("will_change", "will-change"),
    ("word_break", "word-break"),
    ("word_spacing", "word-spacing"),
    ("word_wrap", "word-wrap"),
    ("writing_mode", "writing-mode"),
    ("z_index", "z-index")
]

/-- style::from_ident (src/style.rs lines 399-401): BTreeMap::get on the
table. -/
def from_ident (ident : String) : Option String :=
  identStyle.lookup ident

/-- style::match_name (src/style.rs lines 403-408): the first table entry
whose canonical name equals the argument, in table iteration order. -/
def match_name (styleName : String) : Option String :=
  (identStyle.find? (fun p => p.2 == styleName)).map (fun p => p.2)

/-- The property-key resolution performed for each entry of a style body in
process_css_properties (src/lib.rs lines 236-262): the ident column first,
then the canonical column, then the strict/lenient policy (strict panics
with the key and the enclosing selector, lenient passes the key through). -/
def resolveName (strict : Bool) (classes : Option String) (prop : String) :
    Except CssError String :=
  match from_ident prop with
  | some styleName => Except.ok styleName
  | none =>
    match match_name prop with
    | some matchedProperty => Except.ok matchedProperty
    | none =>
      if strict then Except.error (CssError.unknownProperty prop classes)
      else Except.ok prop

/-- The leaf-value stringification of process_css_properties (src/lib.rs
lines 263-274): the String, Short, Number and Boolean variants are rendered
with their Display form, everything else panics. -/
def stringifyLeaf : JsonValue → Except CssError String
  | JsonValue.str s => Except.ok s
  | JsonValue.short s => Except.ok s
  | JsonValue.num v => Except.ok (toString v)
  | JsonValue.bool v => Except.ok (toString v)
  | _ => Except.error CssError.unsupportedValueType

/-- make_indent (src/lib.rs lines 300-306): four spaces per level in pretty
mode, nothing in compact mode. -/
def make_indent (n : Nat) (useIndents : Bool) : String :=
  if useIndents then String.join (List.replicate n "    ") else ""

/-- selector_namespaced (src/lib.rs lines 326-359): rewrite every
class token of a selector to `.ns__class`, leaving other tokens alone. -/
def selector_namespaced (ns : String) (selectorClasses : String) : String :=
  if strTrim selectorClasses == "." then
    "." ++ ns
  else
    String.intercalate " "
      ((splitChar ' ' (strTrim selectorClasses)).map (fun part0 =>
        if startsWithChar '.' (strTrim part0) then
          String.intercalate ","
            ((splitChar ',' (trimLeadChar '.' (strTrim part0))).map (fun csClass0 =>
              String.intercalate ""
                ((splitChar '.' (trimLeadChar '.' csClass0)).map (fun dotClass =>
                  "." ++ ns ++ "__" ++ dotClass))))
        else strTrim part0))

/-- The emitted selector text of one entry of process_css_selector_map
(src/lib.rs lines 184-192): namespaced when a namespace is configured,
verbatim otherwise. -/
def selectorText (ns : Option String) (classes : String) : String :=
  match ns with
  | some n => selector_namespaced n classes
  | none => classes

/-- The mutually recursive work items of the renderer: a selector map pass
(process_css_selector_map), its entry loop, a property pass
(process_css_properties), and its entry loop carrying the whole style map
(the source recurses on `style_properties` itself for nested values). -/
inductive RenderTask where
  | selectorMap (indent : Nat) (cssMap : JsonValue)
  | selectorLoop (indent : Nat) (entries : List (String × JsonValue))
  | properties (indent : Nat) (classes : Option String) (styleProperties : JsonValue)
  | propertiesLoop (indent : Nat) (classes : Option String) (styleProperties : JsonValue)
      (entries : List (String × JsonValue))

/-- The renderer of src/lib.rs lines 173-297, fuel-indexed.  Buffer appends
are kept in source order (right-associated). -/
def renderGo (strict : Bool) (ns : Option String) (useIndents : Bool) :
    Nat → RenderTask → Option (Except CssError String)
  | 0, _ => none
  | Nat.succ fuel, RenderTask.selectorMap indent cssMap =>
    match renderGo strict ns useIndents fuel (RenderTask.selectorLoop indent cssMap.entries) with
    | none => none
    | some (Except.error e) => some (Except.error e)
    | some (Except.ok s) =>
      some (Except.ok (s ++ (if useIndents then "\n" else "")))
  | Nat.succ fuel, RenderTask.selectorLoop indent entries =>
    match entries with
    | [] => some (Except.ok "")
    | (classes, styleProperties) :: rest =>
      match renderGo strict ns useIndents fuel
          (RenderTask.properties indent (some classes) styleProperties) with
      | none => none
      | some (Except.error e) => some (Except.error e)
      | some (Except.ok props) =>
        match renderGo strict ns useIndents fuel (RenderTask.selectorLoop indent rest) with
        | none => none
        | some (Except.error e) => some (Except.error e)
        | some (Except.ok restOut) =>
          some (Except.ok (
            (if useIndents then "\n" else "")
            ++ (make_indent indent useIndents
            ++ (selectorText ns classes
            ++ ((if useIndents then " " else "")
            ++ ("\x7b"
            ++ ((if useIndents then "\n" else "")
            ++ (props
            ++ (make_indent indent useIndents
            ++ ("\x7d"
            ++ restOut))))))))))
  | Nat.succ fuel, RenderTask.properties indent classes styleProperties =>
    renderGo strict ns useIndents fuel
      (RenderTask.propertiesLoop indent classes styleProperties styleProperties.entries)
  | Nat.succ fuel, RenderTask.propertiesLoop indent classes styleProperties entries =>
    match entries with
    | [] => some (Except.ok "")
    | (prop, value) :: rest =>
      if value.isObject then
        match renderGo strict ns useIndents fuel
            (RenderTask.selectorMap (indent + 1) styleProperties) with
        | none => none
        | some (Except.error e) => some (Except.error e)
        | some (Except.ok nested) =>
          match renderGo strict ns useIndents fuel
              (RenderTask.propertiesLoop indent classes styleProperties rest) with
          | none => none
          | some (Except.error e) => some (Except.error e)
          | some (Except.ok restOut) =>
            some (Except.ok (nested ++ ((if useIndents then "\n" else "") ++ restOut)))
      else
        match resolveName strict classes prop with
        | Except.error e => some (Except.error e)
        | Except.ok styleName =>
          match stringifyLeaf value with
          | Except.error e => some (Except.error e)
          | Except.ok valueStr =>
            match renderGo strict ns useIndents fuel
                (RenderTask.propertiesLoop indent classes styleProperties rest) with
            | none => none
            | some (Except.error e) => some (Except.error e)
            | some (Except.ok restOut) =>
              some (Except.ok (
                make_indent (indent + 1) useIndents
                ++ (styleName
                ++ ((if useIndents then ": " else ":")
                ++ (valueStr
                ++ (";"
                ++ ((if useIndents then "\n" else "")
                ++ restOut)))))))

/-- process_css_selector_map (src/lib.rs lines 173-214). -/
def process_css_selector_map (strict : Bool) (fuel : Nat) (indent : Nat)
    (ns : Option String) (cssMap : JsonValue) (useIndents : Bool) :
    Option (Except CssError String) :=
  renderGo strict ns useIndents fuel (RenderTask.selectorMap indent cssMap)

/-- process_css_properties (src/lib.rs lines 217-297). -/
def process_css_properties (strict : Bool) (fuel : Nat) (indent : Nat)
    (ns : Option String) (classes : Option String) (styleProperties : JsonValue)
    (useIndents : Bool) : Option (Except CssError String) :=
  renderGo strict ns useIndents fuel (RenderTask.properties indent classes styleProperties)

/-- process_css (src/lib.rs lines 167-169). -/
def process_css (strict : Bool) (fuel : Nat) (ns : Option String)
    (json : JsonValue) (useIndents : Bool) : Option (Except CssError String) :=
  process_css_selector_map strict fuel 0 ns json useIndents

/-- A scalar leaf in the sense of the spec: boolean, numeric, or string. -/
def isScalarLeaf : JsonValue → Bool
  | JsonValue.bool _ => true
  | JsonValue.num _ => true
  | JsonValue.str _ => true
  | JsonValue.short _ => true
  | _ => false

/-- Modelled from the spec: the set of leaf shapes the spec says the
stringifier recognizes — "not boolean, numeric, string, or a list thereof"
is the spec's description of when UnsupportedValueType is raised, so the
recognized shapes are booleans, numbers, strings, and lists of those. -/
def specRecognizedLeaf (v : JsonValue) : Bool :=
  isScalarLeaf v ||
    (match v with
     | JsonValue.arr elems => elems.all isScalarLeaf
     | _ => false)

/-- Lexicographic strict order on char lists, by code point. -/
def ltChars : List Char → List Char → Bool
  | [], [] => false
  | [], _ :: _ => true
  | _ :: _, [] => false
  | a :: as, b :: bs =>
    if a.toNat < b.toNat then true
    else if b.toNat < a.toNat then false
    else ltChars as bs

/-- Strict sortedness of the key column of an association list: this is the
BTreeMap key invariant of IDENT_STYLE, and it implies the keys are distinct. -/
def sortedKeys : List (String × String) → Bool
  | [] => true
  | [_] => true
  | p :: q :: t => ltChars p.1.data q.1.data && sortedKeys (q :: t)

/-- The two-selector style tree of the crate's README and jss! doctest. -/
def exampleTree : JsonValue :=
  JsonValue.obj [
    (".layer", JsonValue.obj [
      ("background-color", JsonValue.str "red"),
      ("border", JsonValue.str "1px solid green")]),
    (".hide .layer", JsonValue.obj [
      ("opacity", JsonValue.num 0)])]

/-- A style tree whose body holds an unknown property key, as in the crate's
strict-mode tests. -/
def typoTree : JsonValue :=
  JsonValue.obj [
    (".layer", JsonValue.obj [
      ("background-color-typo", JsonValue.str "red"),
      ("border", JsonValue.str "1px solid green")])]

/-- A style tree with one at-rule whose body holds two nested entries, the
shape of an animation keyframes block. -/
def keyframesTree : JsonValue :=
  JsonValue.obj [
    ("@keyframes spin", JsonValue.obj [
      ("from", JsonValue.obj [("opacity", JsonValue.str "0")]),
      ("to", JsonValue.obj [("opacity", JsonValue.str "1")])])]

/-- C2: rendering the two-entry README tree with no namespace in compact mode
yields exactly the advertised string, in either strict or lenient builds. -/
theorem c2_compact_render :
    ∀ strict : Bool,
      process_css strict 8 none exampleTree false
        = some (Except.ok ".layer\x7bbackground-color:red;border:1px solid green;\x7d.hide .layer\x7bopacity:0;\x7d") := by
  intro strict
  cases strict <;> rfl

/-- C3: a body holding the unknown key background-color-typo fails in the
strict build with an unknown-property error carrying the key and the
enclosing selector, and in the lenient build the raw key passes through
unchanged. -/
theorem c3_strict_vs_lenient :
    process_css true 8 none typoTree false
      = some (Except.error (CssError.unknownProperty "background-color-typo" (some ".layer")))
    ∧ process_css false 8 none typoTree false
      = some (Except.ok ".layer\x7bbackground-color-typo:red;border:1px solid green;\x7d") :=
  ⟨rfl, rfl⟩

/-- C4: the selector namespacer splits on spaces, splits class tokens on
commas into groups, rewrites every dot-separated class of a group to
.ns__class with compound classes concatenated, rejoins groups with commas
and tokens with spaces; in particular the mixed selector-list/descendant
example of the spec, and the compound-class example of the crate's docs,
rewrite as advertised. -/
theorem c4_mixed_selector_list :
    selector_namespaced "frame" ".expand_corners,.hovered button .highlight"
      = ".frame__expand_corners,.frame__hovered button .frame__highlight"
    ∧ selector_namespaced "frame" ".expand_corners.hovered button .highlight"
      = ".frame__expand_corners.frame__hovered button .frame__highlight"
    ∧ selector_namespaced "frame" ".hide .corner" = ".frame__hide .frame__corner" :=
  ⟨rfl, rfl, rfl⟩

/-- C10: rendering a style tree with no entries returns the empty string in
compact mode and the single newline in pretty mode (the trailing newline is
appended unconditionally after the empty entry loop), whatever the strict
flag and namespace. -/
theorem c10_empty_tree :
    ∀ (strict : Bool) (ns : Option String),
      process_css strict 4 ns (JsonValue.obj []) false = some (Except.ok "")
      ∧ process_css strict 4 ns (JsonValue.obj []) true = some (Except.ok "\n") := by
  intro strict ns
  exact ⟨rfl, rfl⟩

/-- C1: at the failing input — an at-rule body with the two nested entries
from and to — the renderer re-renders the whole enclosing body once per
nested entry, so both inner blocks are emitted twice instead of once each:
`process_css_properties` recurses on `style_properties` (the entire body)
rather than on the entry's own sub-body. -/
theorem c1_nested_body_duplicated :
    process_css false 16 none keyframesTree false
      = some (Except.ok "@keyframes spin\x7bfrom\x7bopacity:0;\x7dto\x7bopacity:1;\x7dfrom\x7bopacity:0;\x7dto\x7bopacity:1;\x7d\x7d") :=
  rfl

/-- C8: any selector that trims to exactly the bare dot is rewritten to the
bare namespace class. -/
theorem c8_namespace_root (ns sel : String) (h : strTrim sel = ".") :
    selector_namespaced ns sel = "." ++ ns := by
  simp [selector_namespaced, h]

/-- Witness for C8 at the namespace frame and a selector trimming to the
bare dot. -/
theorem c8_namespace_root_witness :
    strTrim " . " = "." ∧ selector_namespaced "frame" " . " = "." ++ "frame" :=
  ⟨rfl, c8_namespace_root "frame" " . " rfl⟩

/-- C9 (amended): on a selector none of whose space-separated tokens is a
class token, the namespacer returns the trimmed tokens rejoined with single
spaces — independent of the namespace, but not the identity on selectors
carrying extra surrounding whitespace; in particular any namespace leaves
the selector button unchanged. -/
theorem c9_no_class_tokens :
    (∀ (ns sel : String),
      (∀ part ∈ splitChar ' ' (strTrim sel), startsWithChar '.' (strTrim part) = false) →
      selector_namespaced ns sel
        = String.intercalate " " ((splitChar ' ' (strTrim sel)).map strTrim))
    ∧ ∀ ns : String, selector_namespaced ns "button" = "button" := by
  constructor
  · intro ns sel h
    have hne : ¬ strTrim sel = "." := by
      intro hd
      have hmem : "." ∈ splitChar ' ' (strTrim sel) := by
        rw [hd]; decide
      have hfalse := h "." hmem
      exact absurd hfalse (by decide)
    have hbeq : (strTrim sel == ".") = false := beq_eq_false_iff_ne.mpr hne
    simp only [selector_namespaced, hbeq, Bool.false_eq_true, if_false]
    apply congrArg (String.intercalate " ")
    apply List.map_congr_left
    intro part hp
    simp [h part hp]
  · intro ns
    rfl

/-- Counterexample to C9 as stated: the selector with a leading space has no
class token, yet the namespacer does not return it unchanged — it trims it. -/
theorem c9_counterexample :
    ((splitChar ' ' " button").all (fun part => !startsWithChar '.' (strTrim part))) = true
    ∧ selector_namespaced "frame" " button" = "button"
    ∧ " button" ≠ "button" :=
  ⟨rfl, rfl, by decide⟩

/-- Witness for C9 (amended) at the namespace frame and the selector with a
leading space. -/
theorem c9_no_class_tokens_witness :
    selector_namespaced "frame" " button"
      = String.intercalate " " ((splitChar ' ' (strTrim " button")).map strTrim) :=
  c9_no_class_tokens.1 "frame" " button" (by decide)

theorem ltChars_irrefl : ∀ as : List Char, ltChars as as = false := by
  intro as
  induction as with
  | nil => rfl
  | cons a as ih => simp [ltChars, ih]

theorem ltChars_trans :
    ∀ as bs cs : List Char,
      ltChars as bs = true → ltChars bs cs = true → ltChars as cs = true := by
  intro as
  induction as with
  | nil =>
    intro bs cs h1 h2
    cases bs with
    | nil => simp [ltChars] at h1
    | cons b bs2 =>
      cases cs with
      | nil => simp [ltChars] at h2
      | cons c cs2 => rfl
  | cons a as ih =>
    intro bs cs h1 h2
    cases bs with
    | nil => simp [ltChars] at h1
    | cons b bs2 =>
      cases cs with
      | nil => simp [ltChars] at h2
      | cons c cs2 =>
        simp only [ltChars] at h1 h2 ⊢
        by_cases hab : a.toNat < b.toNat
        · by_cases hbc : b.toNat < c.toNat
          · simp [show a.toNat < c.toNat by omega]
          · by_cases hcb : c.toNat < b.toNat
            · simp [hbc, hcb] at h2
            · simp [show a.toNat < c.toNat by omega]
        · by_cases hba : b.toNat < a.toNat
          · simp [hab, hba] at h1
          · have hab2 : a.toNat = b.toNat := by omega
            simp [hab, hba] at h1
            by_cases hbc : b.toNat < c.toNat
            · simp [show a.toNat < c.toNat by omega]
            · by_cases hcb : c.toNat < b.toNat
              · simp [hbc, hcb] at h2
              · simp [hbc, hcb] at h2
                simp [show ¬ a.toNat < c.toNat by omega, show ¬ c.toNat < a.toNat by omega]
                exact ih bs2 cs2 h1 h2

theorem sortedKeys_tail (q : String × String) (t : List (String × String))
    (h : sortedKeys (q :: t) = true) : sortedKeys t = true := by
  cases t with
  | nil => rfl
  | cons r t2 =>
    have h2 : ltChars q.1.data r.1.data = true ∧ sortedKeys (r :: t2) = true := by
      simpa [sortedKeys] using h
    exact h2.2

theorem sorted_head_lt (q : String × String) (t : List (String × String))
    (h : sortedKeys (q :: t) = true) :
    ∀ p ∈ t, ltChars q.1.data p.1.data = true := by
  induction t generalizing q with
  | nil => intro p hp; cases hp
  | cons r t2 ih =>
    intro p hp
    have h1 : ltChars q.1.data r.1.data = true ∧ sortedKeys (r :: t2) = true := by
      simpa [sortedKeys] using h
    cases hp with
    | head => exact h1.1
    | tail _ hp2 => exact ltChars_trans _ _ _ h1.1 (ih r h1.2 p hp2)

theorem key_ne_of_lt (a b : String) (h : ltChars a.data b.data = true) : ¬ a = b := by
  intro he
  rw [he] at h
  rw [ltChars_irrefl b.data] at h
  cases h

theorem lookup_sorted :
    ∀ (l : List (String × String)), sortedKeys l = true →
      ∀ p ∈ l, l.lookup p.1 = some p.2 := by
  intro l
  induction l with
  | nil => intro _ p hp; cases hp
  | cons q t ih =>
    intro hs p hp
    cases hp with
    | head => simp [List.lookup]
    | tail _ hp2 =>
      have hlt := sorted_head_lt q t hs p hp2
      have hne : (p.1 == q.1) = false := by
        apply beq_eq_false_iff_ne.mpr
        intro he
        exact key_ne_of_lt q.1 p.1 hlt (by rw [he])
      simp only [List.lookup, hne]
      exact ih (sortedKeys_tail q t hs) p hp2

theorem lookup_no_hyphen :
    ∀ (l : List (String × String)),
      (l.all (fun p => !(p.1.data.contains '-'))) = true →
      ∀ c : String, c.data.contains '-' = true → l.lookup c = none := by
  intro l
  induction l with
  | nil => intro _ c _; rfl
  | cons q t ih =>
    intro hall c hc
    have hall1 : (q.1.data.contains '-') = false := by
      have h1 := (List.all_eq_true.mp hall) q (List.mem_cons_self q t)
      simpa using h1
    have hall2 : (t.all (fun p => !(p.1.data.contains '-'))) = true := by
      apply List.all_eq_true.mpr
      intro r hr
      exact (List.all_eq_true.mp hall) r (List.mem_cons_of_mem q hr)
    have hne : (c == q.1) = false := by
      apply beq_eq_false_iff_ne.mpr
      intro he
      rw [he] at hc
      rw [hc] at hall1
      cases hall1
    simp only [List.lookup, hne]
    exact ih hall2 c hc

theorem find_canonical :
    ∀ (l : List (String × String)) (c : String),
      (∃ p, p ∈ l ∧ p.2 = c) →
      ((l.find? (fun p => p.2 == c)).map (fun p => p.2)) = some c := by
  intro l
  induction l with
  | nil =>
    rintro c ⟨p, hp, _⟩
    cases hp
  | cons q t ih =>
    rintro c ⟨p, hp, hpc⟩
    by_cases hq : (q.2 == c) = true
    · simp only [List.find?_cons, hq]
      simpa using beq_iff_eq.mp hq
    · have hqf : (q.2 == c) = false := by simpa using hq
      cases hp with
      | head => exact absurd (beq_iff_eq.mpr hpc) hq
      | tail _ hp2 =>
        simp only [List.find?_cons, hqf]
        exact ih c ⟨p, hp2, hpc⟩

set_option maxRecDepth 4000 in
/-- C5: for every entry of the property-name table, resolving the identifier
form returns the canonical form and resolving the canonical form returns it
unchanged, under any strict flag and enclosing selector — the resolution
tries the identifier column first and the canonical column second. -/
theorem c5_roundtrip :
    ∀ (strict : Bool) (classes : Option String), ∀ p ∈ identStyle,
      resolveName strict classes p.1 = Except.ok p.2
      ∧ resolveName strict classes p.2 = Except.ok p.2 := by
  have hsorted : sortedKeys identStyle = true := by decide
  have hhyph : (identStyle.all (fun p => !(p.1.data.contains '-'))) = true := by decide
  have hcanon : (identStyle.all (fun p => p.2 == p.1 || p.2.data.contains '-')) = true := by decide
  intro strict classes p hp
  have h1 : from_ident p.1 = some p.2 := lookup_sorted identStyle hsorted p hp
  constructor
  · simp [resolveName, h1]
  · have hc := (List.all_eq_true.mp hcanon) p hp
    have hc2 : (p.2 == p.1) = true ∨ (p.2.data.contains '-') = true := by
      simpa using hc
    rcases hc2 with hcase | hcase
    · have he : p.2 = p.1 := beq_iff_eq.mp hcase
      rw [← he] at h1
      simp [resolveName, h1]
    · have h2 : from_ident p.2 = none := lookup_no_hyphen identStyle hhyph p.2 hcase
      have h3 : match_name p.2 = some p.2 := find_canonical identStyle p.2 ⟨p, hp, rfl⟩
      simp [resolveName, h2, h3]

/-- Witness for C5 at the first table entry. -/
theorem c5_roundtrip_witness :
    ("align_content", "align-content") ∈ identStyle
    ∧ resolveName false none "align_content" = Except.ok "align-content"
    ∧ resolveName false none "align-content" = Except.ok "align-content" := by
  have hm : ("align_content", "align-content") ∈ identStyle := by decide
  have h := c5_roundtrip false none ("align_content", "align-content") hm
  exact ⟨hm, h.1, h.2⟩

/-- C6 (amended): the renderer raises the unsupported-value error exactly
when a leaf is not a boolean, number, or string — a list leaf also raises
it, lists are not recognized by the renderer itself; recognized leaves are
stringified as boolean to true or false, number to its decimal display,
string verbatim, and are emitted as a name-colon-value-semicolon item. -/
theorem c6_leaf_stringification :
    (∀ b : Bool, stringifyLeaf (JsonValue.bool b) = Except.ok (if b then "true" else "false"))
    ∧ (∀ n : Int, stringifyLeaf (JsonValue.num n) = Except.ok (toString n))
    ∧ (∀ s : String, stringifyLeaf (JsonValue.str s) = Except.ok s
        ∧ stringifyLeaf (JsonValue.short s) = Except.ok s)
    ∧ (∀ v : JsonValue,
        stringifyLeaf v = Except.error CssError.unsupportedValueType
          ↔ isScalarLeaf v = false)
    ∧ (∀ (p name : String) (v : JsonValue), v.isObject = false →
        resolveName false none p = Except.ok name →
        process_css_properties false 4 0 none none (JsonValue.obj [(p, v)]) false
          = some ((stringifyLeaf v).map (fun s => name ++ (":" ++ (s ++ ";"))))) := by
  refine ⟨?_, ?_, ?_, ?_, ?_⟩
  · intro b
    cases b <;> rfl
  · intro n
    rfl
  · intro s
    exact ⟨rfl, rfl⟩
  · intro v
    cases v <;> simp [stringifyLeaf, isScalarLeaf]
  · intro p name v hobj hres
    have h1 : process_css_properties false 4 0 none none (JsonValue.obj [(p, v)]) false
        = renderGo false none false 3
            (RenderTask.propertiesLoop 0 none (JsonValue.obj [(p, v)]) [(p, v)]) := rfl
    rw [h1]
    simp only [renderGo, hobj, hres]
    cases v with
    | str s => rfl
    | short s => rfl
    | num n => rfl
    | bool b => rfl
    | null => rfl
    | arr elems => rfl
    | obj es => cases hobj

/-- Witness for C6 (amended) at the known property width and the numeric
leaf three. -/
theorem c6_leaf_stringification_witness :
    process_css_properties false 4 0 none none
        (JsonValue.obj [("width", JsonValue.num 3)]) false
      = some ((stringifyLeaf (JsonValue.num 3)).map
          (fun s => "width" ++ (":" ++ (s ++ ";")))) :=
  c6_leaf_stringification.2.2.2.2 "width" "width" (JsonValue.num 3) rfl rfl

/-- Counterexample to C6 as stated: a list of strings is a recognized leaf
shape in the words of the spec, yet the renderer raises the
unsupported-value error on it instead of joining the elements with a
space. -/
theorem c6_counterexample :
    specRecognizedLeaf (JsonValue.arr [JsonValue.str "a", JsonValue.str "b"]) = true
    ∧ process_css_properties false 4 0 none (some ".layer")
        (JsonValue.obj [("x", JsonValue.arr [JsonValue.str "a", JsonValue.str "b"])]) false
      = some (Except.error CssError.unsupportedValueType) :=
  ⟨rfl, rfl⟩

theorem selMap_step (strict : Bool) (ns : Option String) (useIndents : Bool)
    (indent : Nat) (j : JsonValue) (fuel : Nat) (s : String)
    (h : renderGo strict ns useIndents (fuel + 1) (RenderTask.selectorMap indent j)
        = some (Except.ok s)) :
    ∃ s0, renderGo strict ns useIndents fuel (RenderTask.selectorLoop indent j.entries)
        = some (Except.ok s0)
      ∧ s = s0 ++ (if useIndents then "\n" else "") := by
  simp only [renderGo] at h
  cases h1 : renderGo strict ns useIndents fuel (RenderTask.selectorLoop indent j.entries) with
  | none => rw [h1] at h; exact Option.noConfusion h
  | some r =>
    cases r with
    | error e => rw [h1] at h; simp at h
    | ok s0 =>
      rw [h1] at h
      simp only [Option.some.injEq, Except.ok.injEq] at h
      exact ⟨s0, rfl, h.symm⟩

theorem selLoop_nil (strict : Bool) (ns : Option String) (useIndents : Bool)
    (indent : Nat) (fuel : Nat) (s : String)
    (h : renderGo strict ns useIndents (fuel + 1) (RenderTask.selectorLoop indent [])
        = some (Except.ok s)) : s = "" := by
  simp only [renderGo] at h
  simp only [Option.some.injEq, Except.ok.injEq] at h
  exact h.symm

theorem selLoop_cons_shape (strict : Bool) (ns : Option String) (useIndents : Bool)
    (indent : Nat) (classes : String) (styleProps : JsonValue)
    (rest : List (String × JsonValue)) (fuel : Nat) (s : String)
    (h : renderGo strict ns useIndents (fuel + 1)
        (RenderTask.selectorLoop indent ((classes, styleProps) :: rest))
        = some (Except.ok s)) :
    ∃ props restOut,
      renderGo strict ns useIndents fuel
          (RenderTask.properties indent (some classes) styleProps)
        = some (Except.ok props)
      ∧ renderGo strict ns useIndents fuel (RenderTask.selectorLoop indent rest)
        = some (Except.ok restOut)
      ∧ s = (if useIndents then "\n" else "")
          ++ (make_indent indent useIndents
          ++ (selectorText ns classes
          ++ ((if useIndents then " " else "")
          ++ ("\x7b"
          ++ ((if useIndents then "\n" else "")
          ++ (props
          ++ (make_indent indent useIndents
          ++ ("\x7d"
          ++ restOut)))))))) := by
  simp only [renderGo] at h
  cases h1 : renderGo strict ns useIndents fuel
      (RenderTask.properties indent (some classes) styleProps) with
  | none => rw [h1] at h; exact Option.noConfusion h
  | some r1 =>
    cases r1 with
    | error e => rw [h1] at h; simp at h
    | ok props =>
      cases h2 : renderGo strict ns useIndents fuel (RenderTask.selectorLoop indent rest) with
      | none => rw [h1, h2] at h; simp at h
      | some r2 =>
        cases r2 with
        | error e => rw [h1, h2] at h; simp at h
        | ok restOut =>
          rw [h1, h2] at h
          simp only [Option.some.injEq, Except.ok.injEq] at h
          exact ⟨props, restOut, rfl, rfl, h.symm⟩

/-- C7 (amended): in pretty mode the top-level output begins and ends with a
newline; the renderer puts exactly one newline before each top-level block
and nothing else between a block and the next, each block being the
selector text, a space, the open brace, a newline, the body and the closing
brace; in compact mode the top level adds nothing after the blocks and each
block is the selector text, the open brace, the body and the close brace
concatenated with no separator, so the renderer emits no whitespace of its
own — but the output starts with the first selector key as given, so a
selector key carrying leading whitespace surfaces in the output; indentation
is four spaces per level in pretty mode and empty in compact mode. -/
theorem c7_render_layout :
    (∀ (strict : Bool) (ns : Option String) (cssMap : JsonValue) (fuel : Nat) (s : String),
      process_css strict (fuel + 1) ns cssMap true = some (Except.ok s) →
      (∃ t, s = "\n" ++ t) ∧ (∃ u, s = u ++ "\n"))
    ∧ (∀ (strict : Bool) (ns : Option String) (indent : Nat) (classes : String)
        (styleProps : JsonValue) (rest : List (String × JsonValue)) (fuel : Nat) (s : String),
      renderGo strict ns true (fuel + 1)
          (RenderTask.selectorLoop indent ((classes, styleProps) :: rest))
        = some (Except.ok s) →
      ∃ props restOut,
        process_css_properties strict fuel indent ns (some classes) styleProps true
          = some (Except.ok props)
        ∧ renderGo strict ns true fuel (RenderTask.selectorLoop indent rest)
          = some (Except.ok restOut)
        ∧ s = "\n" ++ (make_indent indent true ++ (selectorText ns classes
            ++ (" " ++ ("\x7b" ++ ("\n" ++ (props ++ (make_indent indent true
            ++ ("\x7d" ++ restOut)))))))))
    ∧ (∀ (strict : Bool) (ns : Option String) (indent : Nat) (cssMap : JsonValue) (fuel : Nat),
      process_css_selector_map strict (fuel + 1) indent ns cssMap false
        = renderGo strict ns false fuel (RenderTask.selectorLoop indent cssMap.entries))
    ∧ (∀ (strict : Bool) (ns : Option String) (indent : Nat) (classes : String)
        (styleProps : JsonValue) (rest : List (String × JsonValue)) (fuel : Nat) (s : String),
      renderGo strict ns false (fuel + 1)
          (RenderTask.selectorLoop indent ((classes, styleProps) :: rest))
        = some (Except.ok s) →
      ∃ props restOut,
        process_css_properties strict fuel indent ns (some classes) styleProps false
          = some (Except.ok props)
        ∧ renderGo strict ns false fuel (RenderTask.selectorLoop indent rest)
          = some (Except.ok restOut)
        ∧ s = selectorText ns classes ++ ("\x7b" ++ (props ++ ("\x7d" ++ restOut))))
    ∧ (∀ n : Nat, make_indent n true = String.join (List.replicate n "    ")
        ∧ make_indent n false = "") := by
  refine ⟨?_, ?_, ?_, ?_, ?_⟩
  · intro strict ns cssMap fuel s h
    obtain ⟨s0, h0, hs⟩ := selMap_step strict ns true 0 cssMap fuel s h
    refine ⟨?_, ⟨s0, hs⟩⟩
    cases fuel with
    | zero => exact Option.noConfusion h0
    | succ f =>
      cases hent : cssMap.entries with
      | nil =>
        rw [hent] at h0
        have hz : s0 = "" := selLoop_nil strict ns true 0 f s0 h0
        refine ⟨"", ?_⟩
        rw [hs, hz]
        rfl
      | cons e rest =>
        cases e with
        | mk classes styleProps =>
          rw [hent] at h0
          obtain ⟨props, restOut, _, _, hshape⟩ :=
            selLoop_cons_shape strict ns true 0 classes styleProps rest f s0 h0
          exact ⟨(make_indent 0 true ++ (selectorText ns classes ++ (" " ++ ("\x7b" ++
              ("\n" ++ (props ++ (make_indent 0 true ++ ("\x7d" ++ restOut)))))))) ++ "\n",
            by rw [hs, hshape]; exact String.append_assoc "\n" _ "\n"⟩
  · intro strict ns indent classes styleProps rest fuel s h
    obtain ⟨props, restOut, h1, h2, hshape⟩ :=
      selLoop_cons_shape strict ns true indent classes styleProps rest fuel s h
    exact ⟨props, restOut, h1, h2, hshape⟩
  · intro strict ns indent cssMap fuel
    simp only [process_css_selector_map, renderGo]
    cases h1 : renderGo strict ns false fuel (RenderTask.selectorLoop indent cssMap.entries) with
    | none => rfl
    | some r =>
      cases r with
      | error e => rfl
      | ok s0 =>
        show some (Except.ok (s0 ++ "")) = some (Except.ok s0)
        rw [String.append_empty]
  · intro strict ns indent classes styleProps rest fuel s h
    obtain ⟨props, restOut, h1, h2, hshape⟩ :=
      selLoop_cons_shape strict ns false indent classes styleProps rest fuel s h
    exact ⟨props, restOut, h1, h2, hshape⟩
  · intro n
    exact ⟨rfl, rfl⟩

/-- Witness for C7 (amended) on the pretty rendering of the README tree. -/
theorem c7_render_layout_witness :
    (∃ t, "\n.layer \x7b\n    background-color: red;\n    border: 1px solid green;\n\x7d\n.hide .layer \x7b\n    opacity: 0;\n\x7d\n"
        = "\n" ++ t)
    ∧ (∃ u, "\n.layer \x7b\n    background-color: red;\n    border: 1px solid green;\n\x7d\n.hide .layer \x7b\n    opacity: 0;\n\x7d\n"
        = u ++ "\n") :=
  c7_render_layout.1 false none exampleTree 7
    "\n.layer \x7b\n    background-color: red;\n    border: 1px solid green;\n\x7d\n.hide .layer \x7b\n    opacity: 0;\n\x7d\n"
    rfl

/-- Counterexample to C7 as stated: a selector key carrying a leading space
yields compact output beginning with whitespace. -/
theorem c7_counterexample :
    process_css false 8 none (JsonValue.obj [(" .layer", JsonValue.obj [])]) false
      = some (Except.ok " .layer\x7b\x7d")
    ∧ startsWithChar ' ' " .layer\x7b\x7d" = true :=
  ⟨rfl, rfl⟩
